import Mathlib

/-!
Verification of the bemade odoo operator's resource-handler reconciliation
framework, as a shallow embedding of the Python sources:

* `src/handlers/pvc_handler.py` — `PVCHandler.handle_update`, the
  monotonic-resize policy for storage claims;
* `src/handlers/odoo_handler.py` — the ordered pipeline
  (`on_create` / `on_update` / `on_delete`), upgrade classification
  (`_is_upgrade_request`) and the periodic upgrade-job completion check;
* `src/handlers/upgrade_job.py` — the sibling (git-sync) gate and the
  self-clearing completion patch;
* `src/handlers/postgres_clusters.py` — cluster-registry resolution
  (`get_cluster` / `get_default_cluster`).

Files `resource_handler.py` and `job_handler.py` are not among the sources;
the few behaviours the claims need from them are modelled from the spec and
marked as such in their doc comments.
-/

namespace OdooOperator

/-! ## Kubernetes quantity strings (true-capacity reading)

The spec demands unit-aware magnitude comparison of quantity strings.  The
following definitions give the spec-side, true-capacity reading of an
integer quantity with a binary (`Ki`, `Mi`, ...) or decimal (`k`, `M`, ...)
suffix; forms outside that fragment evaluate to `none`. -/

/-- Byte multiplier of a Kubernetes quantity suffix. -/
def suffixFactor : String → Option Nat
  | "" => some 1
  | "k" => some 1000
  | "M" => some (1000 ^ 2)
  | "G" => some (1000 ^ 3)
  | "T" => some (1000 ^ 4)
  | "P" => some (1000 ^ 5)
  | "E" => some (1000 ^ 6)
  | "Ki" => some 1024
  | "Mi" => some (1024 ^ 2)
  | "Gi" => some (1024 ^ 3)
  | "Ti" => some (1024 ^ 4)
  | "Pi" => some (1024 ^ 5)
  | "Ei" => some (1024 ^ 6)
  | _ => none

/-- Numeric value of a string of decimal digits. -/
def natOfDigits (ds : List Char) : Nat :=
  ds.foldl (fun n c => n * 10 + (c.toNat - 48)) 0

/-- True capacity, in bytes, denoted by a Kubernetes quantity string:
digits followed by a recognised suffix. -/
def quantityBytes (q : String) : Option Nat :=
  let ds := q.data.takeWhile Char.isDigit
  let rest := q.data.dropWhile Char.isDigit
  if ds.isEmpty then none
  else (suffixFactor (String.mk rest)).map (fun f => natOfDigits ds * f)

/-- Lexicographic order on code points, one character at a time. -/
def charListLt : List Char → List Char → Bool
  | [], [] => false
  | [], _ :: _ => true
  | _ :: _, [] => false
  | a :: as, b :: bs =>
      if a.toNat < b.toNat then true
      else if b.toNat < a.toNat then false
      else charListLt as bs

/-- Python's `<` on `str`: lexicographic comparison by code point.  The
source compares quantity strings with `>` on `str`, i.e. `pyStrLt b a`. -/
def pyStrLt (a b : String) : Bool :=
  charListLt a.data b.data

/-! ## PVC handler (`src/handlers/pvc_handler.py`) -/

/-- The fields of an observed `V1PersistentVolumeClaim` that the PVC
handler reads or writes: metadata (name, owner references) and
`spec` (access modes, storage class, `resources.requests["storage"]`). -/
structure PVC where
  name : String
  ownerReferences : List String
  accessModes : List String
  storageClassName : Option String
  storage : String
deriving DecidableEq

/-- Outcome of one `handle_update` run: a patch call with the given body, a
no-op, or the fallback create (when the observed claim is absent). -/
inductive PVCUpdateResult where
  | patched (body : PVC)
  | noop
  | created (body : PVC)
deriving DecidableEq

namespace PVCHandler

/-- `PVCHandler.handle_update` (pvc_handler.py, lines 73–102).  `desired` is
the output of `_get_resource_body()`; `observed` is the claim read from the
platform, `none` when absent (the 404 branch falls back to `handle_create`).
The guard `requested_size > current_size` in the source compares the two
quantity strings with Python's `>` on `str`, i.e. lexicographically by code
point — embedded here as Lean's `String` order, which is the same
lexicographic order on characters.  On patch, the source mutates only
`resources.requests["storage"]` of the observed object and sends it back. -/
def handle_update (desired : PVC) (observed : Option PVC) : PVCUpdateResult :=
  match observed with
  | none => .created desired
  | some cur =>
      let requested_size := desired.storage
      let current_size := cur.storage
      if pyStrLt current_size requested_size then
        .patched { cur with storage := requested_size }
      else
        .noop

end PVCHandler

/-- C1.  The claim says `handle_update` compares sizes by true capacity and
leaves the stored size at `max(S0, S1)` under that comparison, issuing no
patch when the requested size is no larger by capacity.  The code instead
compares the raw quantity strings with Python string `>`.  At observed size
`"2Gi"` and requested size `"500Mi"` the string comparison `"500Mi" > "2Gi"`
holds, so a patch is issued and the stored size becomes `"500Mi"`, although
500 mebibytes is smaller than 2 gibibytes by capacity — the handler shrinks
the claim, contradicting both the claim and the method's own docstring
("only allowing size increases"). -/
theorem pvc_handle_update_string_compare_shrinks :
    PVCHandler.handle_update
        { name := "demo-filestore-pvc", ownerReferences := ["demo"],
          accessModes := ["ReadWriteOnce"], storageClassName := some "standard",
          storage := "500Mi" }
        (some { name := "demo-filestore-pvc", ownerReferences := ["demo"],
                accessModes := ["ReadWriteOnce"], storageClassName := some "standard",
                storage := "2Gi" })
      = .patched { name := "demo-filestore-pvc", ownerReferences := ["demo"],
                   accessModes := ["ReadWriteOnce"], storageClassName := some "standard",
                   storage := "500Mi" }
    ∧ quantityBytes "500Mi" = some 524288000
    ∧ quantityBytes "2Gi" = some 2147483648
    ∧ (524288000 : Nat) < 2147483648 := by
  refine ⟨by decide, by decide, by decide, by norm_num⟩

/-- C9.  Whenever `handle_update` issues a patch, the patched body is the
observed claim with only the storage request replaced: name, owner
references, access modes and storage class are all unchanged. -/
theorem pvc_handle_update_patch_frame (desired observed b : PVC)
    (h : PVCHandler.handle_update desired (some observed) = .patched b) :
    b = { observed with storage := desired.storage }
    ∧ b.storage = desired.storage
    ∧ b.accessModes = observed.accessModes
    ∧ b.ownerReferences = observed.ownerReferences
    ∧ b.name = observed.name
    ∧ b.storageClassName = observed.storageClassName := by
  simp only [PVCHandler.handle_update] at h
  split_ifs at h with hc
  · cases h
    exact ⟨rfl, rfl, rfl, rfl, rfl, rfl⟩

/-- Witness for C9: the spec's end-to-end example — observed `"2Gi"`,
requested `"5Gi"` — where the patch fires and changes only the storage
request, keeping the observed access modes and owner references. -/
theorem pvc_handle_update_patch_frame_witness :
    ({ name := "demo-filestore-pvc", ownerReferences := ["demo"],
       accessModes := ["ReadWriteMany"], storageClassName := some "standard",
       storage := "5Gi" } : PVC)
      = { ({ name := "demo-filestore-pvc", ownerReferences := ["demo"],
             accessModes := ["ReadWriteMany"], storageClassName := some "standard",
             storage := "2Gi" } : PVC) with
          storage := ({ name := "odoo", ownerReferences := [],
                        accessModes := ["ReadWriteOnce"],
                        storageClassName := some "fast",
                        storage := "5Gi" } : PVC).storage } :=
  (pvc_handle_update_patch_frame
      { name := "odoo", ownerReferences := [],
        accessModes := ["ReadWriteOnce"], storageClassName := some "fast",
        storage := "5Gi" }
      { name := "demo-filestore-pvc", ownerReferences := ["demo"],
        accessModes := ["ReadWriteMany"], storageClassName := some "standard",
        storage := "2Gi" }
      { name := "demo-filestore-pvc", ownerReferences := ["demo"],
        accessModes := ["ReadWriteMany"], storageClassName := some "standard",
        storage := "5Gi" }
      (by decide)).1

/-! ## Odoo handler pipeline (`src/handlers/odoo_handler.py`) -/

/-- Python value stored under `spec.upgrade.modules`: a list of strings, a
plain string, or any other value — only `isinstance(modules, list)` and the
list's length matter to the source. -/
inductive ModulesVal where
  | pylist (l : List String)
  | pystr (s : String)
  | pyother
deriving DecidableEq

/-- The `spec.upgrade` dictionary, each key possibly absent.
`spec.get("upgrade", {})` yields the dictionary with both keys absent when
the field is missing.  Keys other than these two are not modelled: they
could only make the dictionary truthy, and truthiness is decisive only
when `database` is already non-empty (hence the dictionary non-empty). -/
structure UpgradeDict where
  database? : Option String := none
  modules? : Option ModulesVal := none
deriving DecidableEq

/-- Python truthiness of the (modelled) `spec.upgrade` dictionary: it is
non-empty. -/
def UpgradeDict.truthy (d : UpgradeDict) : Bool :=
  d.database?.isSome || d.modules?.isSome

/-- The slice of the Instance spec that update classification reads. -/
structure OdooSpec where
  upgrade : Option UpgradeDict := none
deriving DecidableEq

namespace OdooHandler

/-- `OdooHandler._is_upgrade_request` (odoo_handler.py, lines 97–105):
`upgrade_spec and database and isinstance(modules, list) and
len(modules) > 0`, where `upgrade_spec = self.spec.get("upgrade", {})`,
`database = upgrade_spec.get("database", "")` and
`modules = upgrade_spec.get("modules", [])`; truthiness is non-empty dict
and non-empty string. -/
def is_upgrade_request (spec : OdooSpec) : Bool :=
  let upgrade_spec := spec.upgrade.getD {}
  let database := upgrade_spec.database?.getD ""
  let modules := upgrade_spec.modules?.getD (.pylist [])
  upgrade_spec.truthy && (database != "") &&
    (match modules with
     | .pylist l => decide (l.length > 0)
     | _ => false)

/-- The handler objects built in `OdooHandler.__init__`, one constructor
per field, plus the separately held upgrade job. -/
inductive HName where
  | pull_secret
  | odoo_user_secret
  | filestore_pvc
  | odoo_conf
  | tls_cert
  | deployment
  | service
  | ingress_route_http
  | ingress_route_https
  | ingress_route_websocket
  | upgrade_job
deriving DecidableEq

/-- `self.handlers` — the pipeline in creation/update order
(odoo_handler.py, lines 62–73).  The upgrade job is not in the list. -/
def handlers : List HName :=
  [.pull_secret, .odoo_user_secret, .filestore_pvc, .odoo_conf, .tls_cert,
   .deployment, .service, .ingress_route_http, .ingress_route_https,
   .ingress_route_websocket]

/-- One handler invocation observed during a lifecycle event. -/
inductive Ev where
  | create (h : HName)
  | update (h : HName)
  | delete (h : HName)
deriving DecidableEq

/-- The handler an invocation went to. -/
def Ev.handlerOf : Ev → HName
  | .create h => h
  | .update h => h
  | .delete h => h

/-- Invocation sequence of `OdooHandler.on_create` (lines 77–80):
`handle_create` on each pipeline handler, in list order. -/
def on_create_trace : List Ev := handlers.map Ev.create

/-- Invocation sequence of `OdooHandler.on_update` (lines 82–89): when
`_is_upgrade_request()` holds, only the upgrade job's `handle_update`
(via `_handle_upgrade`, line 112); otherwise `handle_update` on each
pipeline handler, in list order. -/
def on_update_trace (spec : OdooSpec) : List Ev :=
  if is_upgrade_request spec then [Ev.update .upgrade_job]
  else handlers.map Ev.update

/-- Invocation sequence of `OdooHandler.on_delete` (lines 91–95):
`handle_delete` on each pipeline handler, in reversed list order. -/
def on_delete_trace : List Ev := handlers.reverse.map Ev.delete

end OdooHandler

/-- The spec's classification, stated from its words: "UpgradeRequested iff
the upgrade sub-entity is present and valid (non-empty database and at
least one module)" — for comparison with `is_upgrade_request`. -/
def upgradeRequestValid (spec : OdooSpec) : Bool :=
  match spec.upgrade with
  | none => false
  | some d =>
      (d.database?.getD "" != "") &&
      (match d.modules?.getD (.pylist []) with
       | .pylist l => !l.isEmpty
       | _ => false)

/-- C2.  `on_update` diverts exclusively to the upgrade job precisely when
the spec's validity condition (non-empty database, non-empty modules list)
holds: the code's classifier agrees with the spec's condition on every
spec, the dispatched trace is the upgrade job alone in the upgrade case
and exactly the pipeline handlers otherwise, and the three example specs
classify as the claim lists them. -/
theorem odoo_on_update_upgrade_dispatch (spec : OdooSpec) :
    (OdooHandler.is_upgrade_request spec = upgradeRequestValid spec)
    ∧ (OdooHandler.on_update_trace spec
        = if upgradeRequestValid spec then [OdooHandler.Ev.update .upgrade_job]
          else OdooHandler.handlers.map OdooHandler.Ev.update)
    ∧ (upgradeRequestValid spec = true →
        ∀ h, OdooHandler.Ev.update h ∈ OdooHandler.on_update_trace spec →
          h = OdooHandler.HName.upgrade_job)
    ∧ (upgradeRequestValid spec = false →
        (∀ h ∈ OdooHandler.handlers,
            OdooHandler.Ev.update h ∈ OdooHandler.on_update_trace spec)
        ∧ OdooHandler.Ev.update .upgrade_job ∉ OdooHandler.on_update_trace spec)
    ∧ OdooHandler.is_upgrade_request
        { upgrade := some { database? := some "prod",
                            modules? := some (.pylist ["sale"]) } } = true
    ∧ OdooHandler.is_upgrade_request
        { upgrade := some { database? := some "",
                            modules? := some (.pylist []) } } = false
    ∧ OdooHandler.is_upgrade_request
        { upgrade := some { database? := some "prod",
                            modules? := some (.pylist []) } } = false := by
  obtain ⟨u⟩ := spec
  have hiff : OdooHandler.is_upgrade_request ⟨u⟩ = upgradeRequestValid ⟨u⟩ := by
    cases u with
    | none => decide
    | some d =>
        obtain ⟨db?, mv?⟩ := d
        cases db? with
        | none =>
            cases mv? <;>
              simp [OdooHandler.is_upgrade_request, upgradeRequestValid,
                    UpgradeDict.truthy]
        | some s =>
            cases mv? with
            | none =>
                simp [OdooHandler.is_upgrade_request, upgradeRequestValid,
                      UpgradeDict.truthy]
            | some m =>
                cases m with
                | pylist l =>
                    cases l <;>
                      simp [OdooHandler.is_upgrade_request, upgradeRequestValid,
                            UpgradeDict.truthy]
                | pystr s' =>
                    simp [OdooHandler.is_upgrade_request, upgradeRequestValid,
                          UpgradeDict.truthy]
                | pyother =>
                    simp [OdooHandler.is_upgrade_request, upgradeRequestValid,
                          UpgradeDict.truthy]
  refine ⟨hiff, ?_, ?_, ?_, by decide, by decide, by decide⟩
  · simp only [OdooHandler.on_update_trace, hiff]
  · intro hv h hmem
    simp only [OdooHandler.on_update_trace, hiff, hv] at hmem
    simp at hmem
    exact hmem
  · intro hv
    simp only [OdooHandler.on_update_trace, hiff, hv]
    refine ⟨fun h hh => List.mem_map_of_mem _ hh, by decide⟩

/-- Witness for C2: with `{database: "prod", modules: ["sale"]}` every
invocation of the event goes to the upgrade job; with no upgrade request
the upgrade job is not touched. -/
theorem odoo_on_update_upgrade_dispatch_witness :
    (∀ h, OdooHandler.Ev.update h ∈
        OdooHandler.on_update_trace
          { upgrade := some { database? := some "prod",
                              modules? := some (.pylist ["sale"]) } } →
      h = OdooHandler.HName.upgrade_job)
    ∧ OdooHandler.Ev.update .upgrade_job ∉
        OdooHandler.on_update_trace { upgrade := none } :=
  ⟨(odoo_on_update_upgrade_dispatch
      { upgrade := some { database? := some "prod",
                          modules? := some (.pylist ["sale"]) } }).2.2.1
    (by decide),
   ((odoo_on_update_upgrade_dispatch { upgrade := none }).2.2.2.1
      (by decide)).2⟩

/-- C10.  When `spec.upgrade.modules` is not a Python list — for example
the string `"sale"` — the event is classified a regular update and the
whole pipeline runs, even with a non-empty database:
`isinstance(modules, list)` is required for diversion. -/
theorem odoo_on_update_nonlist_modules (d : UpgradeDict)
    (hm : ∀ l, d.modules?.getD (.pylist []) ≠ .pylist l) :
    OdooHandler.is_upgrade_request { upgrade := some d } = false
    ∧ OdooHandler.on_update_trace { upgrade := some d }
        = OdooHandler.handlers.map OdooHandler.Ev.update := by
  have hf : OdooHandler.is_upgrade_request { upgrade := some d } = false := by
    cases hmv : d.modules?.getD (.pylist []) with
    | pylist l => exact absurd hmv (hm l)
    | pystr s => simp [OdooHandler.is_upgrade_request, hmv]
    | pyother => simp [OdooHandler.is_upgrade_request, hmv]
  refine ⟨hf, ?_⟩
  simp only [OdooHandler.on_update_trace, hf]
  simp

/-- Witness for C10: `spec.upgrade = {database: "prod", modules: "sale"}`
(a string, not a list) runs the full pipeline. -/
theorem odoo_on_update_nonlist_modules_witness :
    OdooHandler.is_upgrade_request
        { upgrade := some { database? := some "prod",
                            modules? := some (.pystr "sale") } } = false
    ∧ OdooHandler.on_update_trace
        { upgrade := some { database? := some "prod",
                            modules? := some (.pystr "sale") } }
        = OdooHandler.handlers.map OdooHandler.Ev.update :=
  odoo_on_update_nonlist_modules
    { database? := some "prod", modules? := some (.pystr "sale") }
    (fun _ hl => ModulesVal.noConfusion hl)

/-- C5.  The delete teardown visits exactly the creation pipeline in
reverse, and a regular (non-upgrade) update visits it in creation order. -/
theorem pipeline_delete_reverse_of_create (spec : OdooSpec)
    (h : OdooHandler.is_upgrade_request spec = false) :
    OdooHandler.on_delete_trace.map OdooHandler.Ev.handlerOf
      = (OdooHandler.on_create_trace.map OdooHandler.Ev.handlerOf).reverse
    ∧ (OdooHandler.on_update_trace spec).map OdooHandler.Ev.handlerOf
      = OdooHandler.on_create_trace.map OdooHandler.Ev.handlerOf := by
  refine ⟨by decide, ?_⟩
  simp only [OdooHandler.on_update_trace, h]
  decide

/-- Witness for C5: an Instance whose spec carries no upgrade request. -/
theorem pipeline_delete_reverse_of_create_witness :
    OdooHandler.on_delete_trace.map OdooHandler.Ev.handlerOf
      = (OdooHandler.on_create_trace.map OdooHandler.Ev.handlerOf).reverse
    ∧ (OdooHandler.on_update_trace { upgrade := none }).map OdooHandler.Ev.handlerOf
      = OdooHandler.on_create_trace.map OdooHandler.Ev.handlerOf :=
  pipeline_delete_reverse_of_create { upgrade := none } (by decide)

/-! ## Pipeline failure semantics (`OdooHandler.on_create` / `on_delete`)

The individual handlers' bodies live behind the platform API; the pipeline
loops are parameterised by a behaviour `act` giving each handler's effect
on the platform state, so the theorems below hold for every behaviour. -/

/-- The loop of `OdooHandler.on_create` (odoo_handler.py, lines 77–80):
`handle_create` on each handler in order.  A handler either returns a new
platform state or raises; Python propagates the exception, ending the loop.
The runner returns the handlers actually invoked, the state reached, and
the propagated error, if any. -/
def runCreate {σ ε : Type} (act : OdooHandler.HName → σ → Except ε σ) :
    List OdooHandler.HName → σ → List OdooHandler.HName × σ × Option ε
  | [], s => ([], s, none)
  | h :: hs, s =>
      match act h s with
      | .ok s' =>
          let r := runCreate act hs s'
          (h :: r.1, r.2)
      | .error e => ([h], s, some e)

/-- `OdooHandler.on_create`: run the loop over the pipeline list. -/
def on_create {σ ε : Type} (act : OdooHandler.HName → σ → Except ε σ)
    (s : σ) : List OdooHandler.HName × σ × Option ε :=
  runCreate act OdooHandler.handlers s

theorem runCreate_append_ok {σ ε : Type}
    (act : OdooHandler.HName → σ → Except ε σ)
    (xs ys : List OdooHandler.HName) (s s₁ : σ)
    (hxs : runCreate act xs s = (xs, s₁, none)) :
    runCreate act (xs ++ ys) s
      = (xs ++ (runCreate act ys s₁).1, (runCreate act ys s₁).2) := by
  induction xs generalizing s with
  | nil =>
      simp only [runCreate] at hxs
      obtain ⟨-, h₂⟩ := Prod.mk.injEq .. ▸ hxs
      obtain ⟨hs, -⟩ := Prod.mk.injEq .. ▸ h₂
      subst hs
      simp
  | cons x xs ih =>
      cases hax : act x s with
      | ok s' =>
          simp only [runCreate, hax] at hxs
          obtain ⟨h₁, h₂⟩ := Prod.mk.injEq .. ▸ hxs
          have h₁' : (runCreate act xs s').1 = xs := by injection h₁
          have hxs' : runCreate act xs s' = (xs, s₁, none) := by
            have hsplit :
                runCreate act xs s'
                  = ((runCreate act xs s').1, (runCreate act xs s').2) := rfl
            rw [hsplit, h₁', h₂]
          simp only [List.cons_append, runCreate, hax, List.append_eq,
                     ih s' hxs']
      | error e =>
          simp only [runCreate, hax] at hxs
          obtain ⟨-, h₂⟩ := Prod.mk.injEq .. ▸ hxs
          obtain ⟨-, h₃⟩ := Prod.mk.injEq .. ▸ h₂
          exact absurd h₃ (by simp)

/-- C6.  When every handler before `hFail` succeeds and `hFail`'s
`handle_create` raises `e`, `on_create` invokes exactly the preceding
handlers and `hFail` — none of the later ones — propagates `e` unchanged,
and leaves the platform state exactly as the earlier handlers built it
(no rollback). -/
theorem on_create_first_failure_aborts {σ ε : Type}
    (act : OdooHandler.HName → σ → Except ε σ) (s s₁ : σ) (e : ε)
    (pre post : List OdooHandler.HName) (hFail : OdooHandler.HName)
    (hsplit : OdooHandler.handlers = pre ++ hFail :: post)
    (hpre : runCreate act pre s = (pre, s₁, none))
    (hfail : act hFail s₁ = .error e) :
    on_create act s = (pre ++ [hFail], s₁, some e) := by
  rw [on_create, hsplit, runCreate_append_ok act pre (hFail :: post) s s₁ hpre]
  simp [runCreate, hfail]

/-- Witness for C6: the third handler (the filestore PVC) raises while the
two secrets before it have already been created; the pipeline stops there,
the error surfaces, and the two created secrets remain. -/
theorem on_create_first_failure_aborts_witness :
    on_create
        (fun h s =>
          if h = OdooHandler.HName.filestore_pvc
          then Except.error "storage quota exceeded"
          else Except.ok (s ++ [h]))
        ([] : List OdooHandler.HName)
      = ([.pull_secret, .odoo_user_secret, .filestore_pvc],
         [.pull_secret, .odoo_user_secret], some "storage quota exceeded") :=
  on_create_first_failure_aborts
    (fun h s =>
      if h = OdooHandler.HName.filestore_pvc
      then Except.error "storage quota exceeded"
      else Except.ok (s ++ [h]))
    [] [.pull_secret, .odoo_user_secret] "storage quota exceeded"
    [.pull_secret, .odoo_user_secret]
    [.odoo_conf, .tls_cert, .deployment, .service, .ingress_route_http,
     .ingress_route_https, .ingress_route_websocket]
    .filestore_pvc rfl rfl rfl

/-- Modelled from the spec: `ResourceHandler.handle_delete`
(`resource_handler.py` is not among the sources) issues the deletion and,
per the teardown rule — "per-handler errors are logged and do not abort
remaining handlers" — logs a failing deletion and returns normally instead
of raising.  A raw deletion behaviour returns the next platform state
together with the error it hit, if any. -/
def handle_delete_logged {σ ε : Type}
    (act : OdooHandler.HName → σ → σ × Option ε)
    (h : OdooHandler.HName) (s : σ) : σ × List (OdooHandler.HName × ε) :=
  match act h s with
  | (s', none) => (s', [])
  | (s', some e) => (s', [(h, e)])

/-- The loop of `OdooHandler.on_delete` (odoo_handler.py, lines 91–95):
`handle_delete` on each handler of the given list, accumulating the trace
of invocations, the platform state and the log of swallowed errors. -/
def runDelete {σ ε : Type} (act : OdooHandler.HName → σ → σ × Option ε) :
    List OdooHandler.HName → σ →
      List OdooHandler.HName × σ × List (OdooHandler.HName × ε)
  | [], s => ([], s, [])
  | h :: hs, s =>
      let p := handle_delete_logged act h s
      let r := runDelete act hs p.1
      (h :: r.1, r.2.1, p.2 ++ r.2.2)

/-- `OdooHandler.on_delete`: run the loop over the reversed pipeline. -/
def on_delete {σ ε : Type} (act : OdooHandler.HName → σ → σ × Option ε)
    (s : σ) : List OdooHandler.HName × σ × List (OdooHandler.HName × ε) :=
  runDelete act OdooHandler.handlers.reverse s

theorem runDelete_trace {σ ε : Type}
    (act : OdooHandler.HName → σ → σ × Option ε)
    (hs : List OdooHandler.HName) (s : σ) :
    (runDelete act hs s).1 = hs := by
  induction hs generalizing s with
  | nil => rfl
  | cons h hs ih => simp only [runDelete, ih]

theorem runDelete_append {σ ε : Type}
    (act : OdooHandler.HName → σ → σ × Option ε)
    (xs ys : List OdooHandler.HName) (s : σ) :
    runDelete act (xs ++ ys) s
      = ((runDelete act xs s).1 ++ (runDelete act ys (runDelete act xs s).2.1).1,
         (runDelete act ys (runDelete act xs s).2.1).2.1,
         (runDelete act xs s).2.2
           ++ (runDelete act ys (runDelete act xs s).2.1).2.2) := by
  induction xs generalizing s with
  | nil => simp [runDelete]
  | cons x xs ih =>
      simp only [List.cons_append, runDelete, List.append_eq, ih,
                 List.append_assoc]

/-- C7.  Whatever each handler's raw deletion does, `on_delete` invokes
every pipeline handler in reverse order — the teardown always runs to
completion — and a deletion error hit along the way is recorded in the log
(swallowed) rather than raised: here, the handler `h` reached in state `s₁`
fails with `e`, and `(h, e)` is in the final log while the trace still
covers the whole reversed pipeline. -/
theorem on_delete_swallows_and_continues {σ ε : Type}
    (act : OdooHandler.HName → σ → σ × Option ε) (s s₁ s₂ : σ) (e : ε)
    (pre post : List OdooHandler.HName) (h : OdooHandler.HName)
    (hsplit : OdooHandler.handlers.reverse = pre ++ h :: post)
    (hpre : (runDelete act pre s).2.1 = s₁)
    (hfail : act h s₁ = (s₂, some e)) :
    (on_delete act s).1 = OdooHandler.handlers.reverse
    ∧ (h, e) ∈ (on_delete act s).2.2 := by
  refine ⟨runDelete_trace act _ s, ?_⟩
  rw [on_delete, hsplit, runDelete_append]
  refine List.mem_append.mpr (Or.inr ?_)
  rw [hpre]
  simp only [runDelete, handle_delete_logged, hfail]
  exact List.mem_append.mpr (Or.inl (List.mem_singleton.mpr rfl))

/-- Witness for C7: the deployment's raw deletion fails mid-teardown; the
error is logged and every handler, before and after it, is still visited
in reverse order. -/
theorem on_delete_swallows_and_continues_witness :
    (on_delete
        (fun h s =>
          (s ++ [h],
           if h = OdooHandler.HName.deployment then some "conflict" else none))
        ([] : List OdooHandler.HName)).1
      = OdooHandler.handlers.reverse
    ∧ (OdooHandler.HName.deployment, "conflict")
        ∈ (on_delete
            (fun h s =>
              (s ++ [h],
               if h = OdooHandler.HName.deployment then some "conflict" else none))
            ([] : List OdooHandler.HName)).2.2 :=
  on_delete_swallows_and_continues
    (fun h s =>
      (s ++ [h],
       if h = OdooHandler.HName.deployment then some "conflict" else none))
    []
    [.ingress_route_websocket, .ingress_route_https, .ingress_route_http,
     .service]
    [.ingress_route_websocket, .ingress_route_https, .ingress_route_http,
     .service, .deployment]
    "conflict"
    [.ingress_route_websocket, .ingress_route_https, .ingress_route_http,
     .service]
    [.tls_cert, .odoo_conf, .filestore_pvc, .odoo_user_secret, .pull_secret]
    .deployment rfl rfl rfl

/-! ## Upgrade job (`src/handlers/upgrade_job.py`) -/

/-- A platform API call issued by the job handler. -/
inductive PlatformCall where
  | createJob
  | patchJob
deriving DecidableEq

/-- The state the upgrade-job handler reads and mutates: the Instance's
`spec.upgrade` field and the platform calls issued so far. -/
structure UJState where
  specUpgrade : Option UpgradeDict
  calls : List PlatformCall
deriving DecidableEq

/-- A platform API failure surfaced by the job handler. -/
inductive UJErr where
  | apiError (msg : String)
deriving DecidableEq

namespace JobHandler

/-- Modelled from the spec: `JobHandler.handle_create` (`job_handler.py`
is not among the sources) creates the upgrade job through the platform
API. -/
def handle_create (s : UJState) : Except UJErr UJState :=
  .ok { s with calls := s.calls ++ [.createJob] }

/-- Modelled from the spec: `JobHandler.handle_update` creates or patches
the upgrade job through the platform API. -/
def handle_update (s : UJState) : Except UJErr UJState :=
  .ok { s with calls := s.calls ++ [.patchJob] }

end JobHandler

namespace UpgradeJob

/-- `UpgradeJob.handle_create` (upgrade_job.py, lines 26–28): only when
the sibling git-sync job is not observed running does the inherited
`JobHandler.handle_create` run; otherwise the method returns at once. -/
def handle_create (git_sync_running : Bool) (s : UJState) :
    Except UJErr UJState :=
  if !git_sync_running then JobHandler.handle_create s else .ok s

/-- `UpgradeJob.handle_update` (upgrade_job.py, lines 30–32): same gate
around the inherited `JobHandler.handle_update`. -/
def handle_update (git_sync_running : Bool) (s : UJState) :
    Except UJErr UJState :=
  if !git_sync_running then JobHandler.handle_update s else .ok s

/-- `completion_patch` passed by `UpgradeJob.__init__` (upgrade_job.py,
line 19): the body `{"spec": {"upgrade": None}}`, i.e. set `spec.upgrade`
to null. -/
def completion_patch : Option (Option UpgradeDict) := some none

end UpgradeJob

/-- C3.  With the repository-sync job observed running, both
`UpgradeJob.handle_create` and `UpgradeJob.handle_update` return without
error and leave the state untouched: no platform call is issued and the
pending upgrade request in `spec.upgrade` stays in place for the next
reconciliation. -/
theorem upgrade_job_gate_suppresses (s : UJState) :
    UpgradeJob.handle_create true s = .ok s
    ∧ UpgradeJob.handle_update true s = .ok s
    ∧ (∀ s', UpgradeJob.handle_create true s = .ok s' →
        s'.calls = s.calls ∧ s'.specUpgrade = s.specUpgrade)
    ∧ (∀ s', UpgradeJob.handle_update true s = .ok s' →
        s'.calls = s.calls ∧ s'.specUpgrade = s.specUpgrade) := by
  refine ⟨rfl, rfl, ?_, ?_⟩ <;>
    · intro s' hs'
      cases hs'
      exact ⟨rfl, rfl⟩

/-- Witness for C3: a state holding a pending upgrade request, gated by a
running git-sync job, is returned unchanged by both entry points. -/
theorem upgrade_job_gate_suppresses_witness :
    UpgradeJob.handle_create true
        { specUpgrade := some { database? := some "prod",
                                modules? := some (.pylist ["sale"]) },
          calls := [] }
      = .ok { specUpgrade := some { database? := some "prod",
                                    modules? := some (.pylist ["sale"]) },
              calls := [] }
    ∧ ({ specUpgrade := some { database? := some "prod",
                               modules? := some (.pylist ["sale"]) },
         calls := [] } : UJState).calls = []
    ∧ ({ specUpgrade := some { database? := some "prod",
                               modules? := some (.pylist ["sale"]) },
         calls := [] } : UJState).specUpgrade
        = some { database? := some "prod",
                 modules? := some (.pylist ["sale"]) } :=
  ⟨(upgrade_job_gate_suppresses
      { specUpgrade := some { database? := some "prod",
                              modules? := some (.pylist ["sale"]) },
        calls := [] }).1,
   ((upgrade_job_gate_suppresses
      { specUpgrade := some { database? := some "prod",
                              modules? := some (.pylist ["sale"]) },
        calls := [] }).2.2.1 _ rfl).1,
   ((upgrade_job_gate_suppresses
      { specUpgrade := some { database? := some "prod",
                              modules? := some (.pylist ["sale"]) },
        calls := [] }).2.2.2 _ rfl).2⟩

/-- Patch application for `completion_patch`-shaped bodies: `some v` sets
`spec.upgrade` to `v`, `none` leaves the spec alone. -/
def applyUpgradePatch (p : Option (Option UpgradeDict)) (spec : OdooSpec) :
    OdooSpec :=
  { spec with upgrade := p.getD spec.upgrade }

/-- Phase of the observed upgrade job, read by the periodic check. -/
inductive JobPhase where
  | pending
  | running
  | succeeded
  | failed
deriving DecidableEq

/-- Modelled from the spec: `JobHandler.handle_completion` (`job_handler.py`
is not among the sources) — the periodically triggered completion check
reads the job's observed phase and, once the job has succeeded, patches the
Instance with the configured completion patch; in every other phase the
spec is left untouched. -/
def JobHandler.handle_completion (phase : JobPhase)
    (patch : Option (Option UpgradeDict)) (spec : OdooSpec) : OdooSpec :=
  match phase with
  | .succeeded => applyUpgradePatch patch spec
  | _ => spec

/-- `OdooHandler.handle_upgrade_job_check` (odoo_handler.py, lines
120–129): invoke the upgrade job's completion handling with its configured
`completion_patch`. -/
def OdooHandler.handle_upgrade_job_check (phase : JobPhase)
    (spec : OdooSpec) : OdooSpec :=
  JobHandler.handle_completion phase UpgradeJob.completion_patch spec

/-- C4.  Once the upgrade job is observed succeeded, the periodic check
patches `spec.upgrade` back to empty, and the cleared spec no longer
classifies as an upgrade request — the same request cannot re-fire. -/
theorem upgrade_completion_self_clearing (phase : JobPhase) (spec : OdooSpec)
    (h : phase = .succeeded) :
    (OdooHandler.handle_upgrade_job_check phase spec).upgrade = none
    ∧ OdooHandler.is_upgrade_request
        (OdooHandler.handle_upgrade_job_check phase spec) = false := by
  subst h
  exact ⟨rfl, rfl⟩

/-- Witness for C4: a succeeded job clears a pending upgrade request. -/
theorem upgrade_completion_self_clearing_witness :
    (OdooHandler.handle_upgrade_job_check .succeeded
        { upgrade := some { database? := some "prod",
                            modules? := some (.pylist ["sale"]) } }).upgrade
      = none
    ∧ OdooHandler.is_upgrade_request
        (OdooHandler.handle_upgrade_job_check .succeeded
          { upgrade := some { database? := some "prod",
                              modules? := some (.pylist ["sale"]) } }) = false :=
  upgrade_completion_self_clearing .succeeded
    { upgrade := some { database? := some "prod",
                        modules? := some (.pylist ["sale"]) } } rfl

/-! ## PostgreSQL cluster registry (`src/handlers/postgres_clusters.py`) -/

/-- `PostgresCluster` dataclass (postgres_clusters.py, lines 35–56). -/
structure PostgresCluster where
  name : String
  host : String
  port : Nat
  admin_user : String
  admin_password : String
  is_default : Bool
deriving DecidableEq

/-- `get_default_cluster` (postgres_clusters.py, lines 101–112): the first
entry, in registry (insertion) order, flagged default. -/
def get_default_cluster (clusters : List (String × PostgresCluster)) :
    Option PostgresCluster :=
  (clusters.map Prod.snd).find? (fun c => c.is_default)

/-- The two `ValueError`s `get_cluster` can raise. -/
inductive ClusterErr where
  | notFound (name : String) (available : List String)
  | noDefault
deriving DecidableEq

/-- The names listed in the lookup error (postgres_clusters.py, line 140):
`list(clusters.keys()) if clusters else ["(none configured)"]`. -/
def availableNames (clusters : List (String × PostgresCluster)) :
    List String :=
  if clusters.isEmpty then ["(none configured)"] else clusters.map Prod.fst

/-- The shared fall-through of `get_cluster`: the default cluster, or the
no-default `ValueError` (postgres_clusters.py, lines 146–154). -/
def resolve_default (clusters : List (String × PostgresCluster)) :
    Except ClusterErr PostgresCluster :=
  match get_default_cluster clusters with
  | some c => .ok c
  | none => .error .noDefault

/-- `get_cluster` (postgres_clusters.py, lines 115–154).  The registry is
the `clusters.yaml` dictionary in insertion order with unique keys, so
membership and indexing are the first (only) binding of the key.  Python's
`if name and name in clusters` makes an empty-string name falsy: it falls
through to the default-cluster path exactly like `None`. -/
def get_cluster (clusters : List (String × PostgresCluster))
    (name : Option String) : Except ClusterErr PostgresCluster :=
  match name with
  | some n =>
      if n != "" then
        match clusters.lookup n with
        | some c => .ok c
        | none => .error (.notFound n (availableNames clusters))
      else resolve_default clusters
  | none => resolve_default clusters

/-- Counterexample to C8 as stated: calling `get_cluster` with the explicit
name `""` on a registry that has no entry named `""` neither raises a
lookup error nor returns a matching entry — the empty string is falsy in
Python, so the call silently resolves the default cluster instead. -/
theorem get_cluster_empty_name_counterexample :
    get_cluster
        [("b", { name := "b", host := "db2.internal", port := 5432,
                 admin_user := "postgres", admin_password := "pw",
                 is_default := true })]
        (some "")
      = .ok { name := "b", host := "db2.internal", port := 5432,
              admin_user := "postgres", admin_password := "pw",
              is_default := true }
    ∧ ([("b", { name := "b", host := "db2.internal", port := 5432,
                admin_user := "postgres", admin_password := "pw",
                is_default := true })]
        : List (String × PostgresCluster)).lookup "" = none := by
  exact ⟨rfl, rfl⟩

/-- C8 (amended).  Cluster resolution: an explicit non-empty name returns
the exactly matching entry or raises a lookup error listing the available
cluster names; no name — or the empty-string name, which Python's
truthiness treats as no name — returns the first entry flagged default,
and raises the no-default-configured error when no entry is flagged
default (including the empty registry). -/
theorem get_cluster_resolution (reg : List (String × PostgresCluster)) :
    (∀ n c, n ≠ "" → reg.lookup n = some c → get_cluster reg (some n) = .ok c)
    ∧ (∀ n, n ≠ "" → reg.lookup n = none →
        get_cluster reg (some n) = .error (.notFound n (availableNames reg)))
    ∧ (∀ c, get_default_cluster reg = some c →
        (get_cluster reg none = .ok c ∧ get_cluster reg (some "") = .ok c
          ∧ c.is_default = true))
    ∧ (get_default_cluster reg = none →
        (get_cluster reg none = .error .noDefault
          ∧ get_cluster reg (some "") = .error .noDefault)) := by
  refine ⟨?_, ?_, ?_, ?_⟩
  · intro n c hn hl
    have hb : (n != "") = true := by simpa using hn
    simp [get_cluster, hb, hl]
  · intro n hn hl
    have hb : (n != "") = true := by simpa using hn
    simp [get_cluster, hb, hl]
  · intro c hc
    have hd : c.is_default = true := by
      have := List.find?_some hc
      simpa using this
    exact ⟨by simp [get_cluster, resolve_default, hc],
           by simp [get_cluster, resolve_default, hc], hd⟩
  · intro hc
    exact ⟨by simp [get_cluster, resolve_default, hc],
           by simp [get_cluster, resolve_default, hc]⟩

/-- Witness for C8 (amended), on the spec's example registry
`{a: default=false, b: default=true}` and on the empty registry. -/
theorem get_cluster_resolution_witness :
    get_cluster
        [("a", { name := "a", host := "db1.internal", port := 5432,
                 admin_user := "postgres", admin_password := "pw",
                 is_default := false }),
         ("b", { name := "b", host := "db2.internal", port := 5432,
                 admin_user := "postgres", admin_password := "pw",
                 is_default := true })]
        (some "a")
      = .ok { name := "a", host := "db1.internal", port := 5432,
              admin_user := "postgres", admin_password := "pw",
              is_default := false }
    ∧ get_cluster
        [("a", { name := "a", host := "db1.internal", port := 5432,
                 admin_user := "postgres", admin_password := "pw",
                 is_default := false }),
         ("b", { name := "b", host := "db2.internal", port := 5432,
                 admin_user := "postgres", admin_password := "pw",
                 is_default := true })]
        (some "missing")
      = .error (.notFound "missing" ["a", "b"])
    ∧ get_cluster
        [("a", { name := "a", host := "db1.internal", port := 5432,
                 admin_user := "postgres", admin_password := "pw",
                 is_default := false }),
         ("b", { name := "b", host := "db2.internal", port := 5432,
                 admin_user := "postgres", admin_password := "pw",
                 is_default := true })]
        none
      = .ok { name := "b", host := "db2.internal", port := 5432,
              admin_user := "postgres", admin_password := "pw",
              is_default := true }
    ∧ get_cluster ([] : List (String × PostgresCluster)) none
      = .error .noDefault := by
  refine ⟨?_, ?_, ?_, ?_⟩
  · exact (get_cluster_resolution _).1 "a" _ (by decide) rfl
  · exact (get_cluster_resolution _).2.1 "missing" (by decide) rfl
  · exact ((get_cluster_resolution
        [("a", { name := "a", host := "db1.internal", port := 5432,
                 admin_user := "postgres", admin_password := "pw",
                 is_default := false }),
         ("b", { name := "b", host := "db2.internal", port := 5432,
                 admin_user := "postgres", admin_password := "pw",
                 is_default := true })]).2.2.1
        { name := "b", host := "db2.internal", port := 5432,
          admin_user := "postgres", admin_password := "pw",
          is_default := true } rfl).1
  · exact ((get_cluster_resolution
        ([] : List (String × PostgresCluster))).2.2.2 rfl).1

end OdooOperator
